import Mathlib

/-!
Verification of the apple-mail-mcp connector against its specification.

The Python sources (`src/apple_mail_mcp/utils.py`, `mail_connector.py`,
`security.py`, `server.py`) are shallowly embedded below.  Pure string
helpers become Lean functions on `String`/`List Char`; the AppleScript
subprocess bridge is modelled by passing its outcome in as an explicit
`Except`/`String` argument and by recording, for each operation, the list
of scripts (or abstract bridge calls) it would dispatch; the connector's
per-account capability cache and the process-wide operation log become
explicit state threaded through the modelled operations.

Python string primitives used by the sources operate on single-character
separators / patterns only, so they are embedded as character-list
recursions (`splitChar` for `str.split("|")`, `replaceChar` for
`str.replace` with one-character patterns, `splitMaxAux` for
`str.split("|", 6)`), which keeps every definition kernel-computable.
-/

namespace AppleMailMCP

/-! ### Python string primitives (single-character patterns) -/

/-- Python `s.replace(c, r)` for a one-character pattern `c`:
every occurrence of the character `c` is expanded to the list `r`. -/
def replaceChar (c : Char) (r : List Char) : List Char → List Char
  | [] => []
  | x :: xs => (if x = c then r else [x]) ++ replaceChar c r xs

/-- Python `s.split(c)` for a one-character separator: splits on every
occurrence, keeping empty chunks (`"a||b".split("|") == ["a","","b"]`,
`"".split("|") == [""]`). -/
def splitChar (sep : Char) : List Char → List (List Char)
  | [] => [[]]
  | c :: cs =>
    if c = sep then [] :: splitChar sep cs
    else
      match splitChar sep cs with
      | [] => [[c]]
      | h :: t => (c :: h) :: t

/-- Python `s.split(c, n)` for a one-character separator with a maximum
number `n` of splits: once `n` splits have been made the remainder is a
single chunk. -/
def splitMaxAux (sep : Char) : List Char → Nat → List (List Char)
  | cs, 0 => [cs]
  | [], _ + 1 => [[]]
  | c :: cs, n + 1 =>
    if c = sep then [] :: splitMaxAux sep cs n
    else
      match splitMaxAux sep cs (n + 1) with
      | [] => [[c]]
      | h :: t => (c :: h) :: t

/-- Python `str.lower()` restricted to ASCII (all strings this program
lowercases are ASCII-only AppleScript output or color names). -/
def pyLower (s : String) : String := String.mk (s.data.map Char.toLower)

/-- First list a prefix of the second (over characters). -/
def listStartsWith : List Char → List Char → Bool
  | [], _ => true
  | _ :: _, [] => false
  | c :: cs, h :: hs => c = h && listStartsWith cs hs

/-- The needle occurs as a contiguous sublist of the haystack; the empty
needle always occurs (Python `"" in s` is `True`). -/
def listContains (hay needle : List Char) : Bool :=
  if listStartsWith needle hay then true
  else
    match hay with
    | [] => false
    | _ :: t => listContains t needle

/-- Python `needle in hay` substring containment. -/
def pyContains (hay needle : String) : Bool := listContains hay.data needle.data

/-- Characters removed by Python `str.strip()` with no argument. -/
def pyIsSpace (c : Char) : Bool :=
  c = ' ' ∨ c = '\t' ∨ c = '\n' ∨ c = '\r' ∨ c = '\x0b' ∨ c = '\x0c'

/-- Python `s.strip()`: whitespace removed from both ends. -/
def pyStrip (s : String) : String :=
  String.mk (((s.data.dropWhile pyIsSpace).reverse.dropWhile pyIsSpace).reverse)

/-- Python `sep.join(items)`. -/
def joinSep (sep : String) : List String → String
  | [] => ""
  | [x] => x
  | x :: xs => x ++ sep ++ joinSep sep xs

/-- Python `s.isdigit()` for ASCII digit strings (non-empty, all digits). -/
def pyIsDigit (s : String) : Bool := s ≠ "" && s.data.all (fun c => c.isDigit)

/-- Decimal value of an ASCII digit string. -/
def pyToNat (s : String) : Nat := s.data.foldl (fun a c => a * 10 + (c.toNat - 48)) 0

/-- The result-count idiom used throughout `mail_connector.py`:
`int(result) if result.isdigit() else 0`. -/
def parse_count (s : String) : Nat := if pyIsDigit s then pyToNat s else 0

/-! ### utils.py -/

/-- utils.py `escape_applescript_string`:
`s.replace("\\", "\\\\").replace('"', '\\"')` — double every backslash,
then escape every double quote (both patterns are single characters). -/
def escape_applescript_string (s : String) : String :=
  String.mk (replaceChar '"' ['\\', '"'] (replaceChar '\\' ['\\', '\\'] s.data))

/-- utils.py `sanitize_input` on strings: remove null bytes, then cap the
length at 10000 characters (the conditional slice `s[:10000]` equals an
unconditional `List.take 10000`). -/
def sanitize_input (s : String) : String :=
  String.mk ((s.data.filter (fun c => c ≠ '\x00')).take 10000)

/-- utils.py `validate_flag_color`: lowercased membership in the
8-entry color set. -/
def validate_flag_color (color : String) : Bool :=
  pyLower color ∈ ["none", "orange", "red", "yellow", "blue", "green", "purple", "gray"]

/-- utils.py `get_flag_index`'s `color_map`, as an association list in
source order. -/
def color_map : List (String × Int) :=
  [("none", -1), ("orange", 0), ("red", 1), ("yellow", 2),
   ("blue", 3), ("green", 4), ("purple", 5), ("gray", 6)]

/-- utils.py `get_flag_index`: dictionary lookup on the lowercased color;
`none` models the `ValueError` raised for colors absent from the map. -/
def get_flag_index (color : String) : Option Int :=
  color_map.lookup (pyLower color)

/-! ### exceptions.py / the bridge's error taxonomy

`MailError` subclasses relevant to the connector.  There is no timeout
subclass in `exceptions.py`; `subprocess.TimeoutExpired` is converted to
the generic `MailAppleScriptError` in `_run_applescript`. -/

inductive MailErrKind where
  | accountNotFound
  | mailboxNotFound
  | messageNotFound
  | appleScript
deriving DecidableEq, Repr

structure MailErr where
  kind : MailErrKind
  msg : String
deriving DecidableEq, Repr

/-! ### mail_connector.py — the scripting bridge -/

/-- Observable outcome of the `osascript` subprocess: either the timeout
expired, or the process exited with a return code, stdout and stderr. -/
inductive RunOutcome where
  | timeout
  | exited (returncode : Int) (stdout stderr : String)
deriving DecidableEq, Repr

/-- `AppleMailConnector._run_applescript` (mail_connector.py lines 51-86)
as a function of the subprocess outcome: on non-zero exit the stripped
stderr is pattern-matched into a typed error (first match in source
order), on zero exit the stripped stdout is returned, and on timeout the
generic `MailAppleScriptError` is raised with a timeout message. -/
def run_applescript_classify (timeoutSecs : Nat) : RunOutcome → Except MailErr String
  | .timeout =>
    .error ⟨.appleScript, "Script execution timeout after " ++ toString timeoutSecs ++ "s"⟩
  | .exited returncode stdout stderr =>
    if returncode ≠ 0 then
      let error_msg := pyStrip stderr
      if pyContains error_msg "Can't get account" then .error ⟨.accountNotFound, error_msg⟩
      else if pyContains error_msg "Can't get mailbox" then .error ⟨.mailboxNotFound, error_msg⟩
      else if pyContains error_msg "Can't get message" then .error ⟨.messageNotFound, error_msg⟩
      else .error ⟨.appleScript, error_msg⟩
    else .ok (pyStrip stdout)

/-! ### mail_connector.py — the result decoder -/

/-- The five positional fields of a search-result record. -/
structure MsgRec where
  id : String
  subject : String
  sender : String
  date_received : String
  read_status : Bool
deriving DecidableEq, Repr

/-- Loop body of `AppleMailConnector._parse_message_results` (lines
215-226): skip an empty line, split on `|`, append a record when at least
5 fields are present. -/
def parse_line_step (acc : List MsgRec) (line : List Char) : List MsgRec :=
  if line = [] then acc
  else
    let parts := (splitChar '|' line).map String.mk
    if parts.length ≥ 5 then
      acc ++ [{ id := parts.getD 0 "", subject := parts.getD 1 "",
                sender := parts.getD 2 "", date_received := parts.getD 3 "",
                read_status := pyLower (parts.getD 4 "") == "true" }]
    else acc

/-- `AppleMailConnector._parse_message_results` (lines 210-227): split the
raw output into lines, skip empty lines, split each line on `|`, keep only
lines with at least 5 fields, and build a record from the first five. -/
def parse_message_results (result : String) : List MsgRec :=
  if result = "" then []
  else (splitChar '\n' result.data).foldl parse_line_step []

/-- Specification-side per-line decoder: `none` for an empty line or a
line with fewer than 5 pipe-separated fields, otherwise the record built
from the first five fields. -/
def decode_line (line : List Char) : Option MsgRec :=
  if line = [] then none
  else
    let parts := (splitChar '|' line).map String.mk
    if parts.length ≥ 5 then
      some { id := parts.getD 0 "", subject := parts.getD 1 "",
             sender := parts.getD 2 "", date_received := parts.getD 3 "",
             read_status := pyLower (parts.getD 4 "") == "true" }
    else none

/-- The seven fields parsed by `get_message` (lines 419-429). -/
structure Msg7 where
  id : String
  subject : String
  sender : String
  date_received : String
  read_status : Bool
  flagged : Bool
  content : String
deriving DecidableEq, Repr

/-- The decoding step of `AppleMailConnector.get_message` (lines 416-431):
`result.split("|", 6)` (at most 7 parts, so the content field is never
re-split), accept when at least 6 parts are present, content defaulting to
`""` for the 6-part shape; `none` models the `MailMessageNotFoundError`
raised on a shorter parse. -/
def get_message_parse (result : String) : Option Msg7 :=
  let parts := (splitMaxAux '|' result.data 6).map String.mk
  if parts.length ≥ 6 then
    some { id := parts.getD 0 "", subject := parts.getD 1 "",
           sender := parts.getD 2 "", date_received := parts.getD 3 "",
           read_status := pyLower (parts.getD 4 "") == "true",
           flagged := pyLower (parts.getD 5 "") == "true",
           content := if parts.length > 6 then parts.getD 6 "" else "" }
  else none

/-! ### mail_connector.py — local filtering (the scan path) -/

/-- Python truthiness of an optional string argument (`None` and `""` are
falsy). -/
def truthyStr : Option String → Bool
  | none => false
  | some s => s != ""

/-- Python truthiness of an optional integer argument (`None` and `0` are
falsy). -/
def truthyNat : Option Nat → Bool
  | none => false
  | some n => n != 0

/-- Loop body of `AppleMailConnector._filter_messages` (lines 237-249):
three `continue` guards (case-insensitive substring for sender/subject
when the filter is truthy, exact match for read status when it is not
`None`), append, then `break` once a truthy limit is reached. -/
def filter_messages_loop (sender_contains subject_contains : Option String)
    (read_status : Option Bool) (limit : Option Nat)
    (acc : List MsgRec) : List MsgRec → List MsgRec
  | [] => acc
  | msg :: rest =>
    if truthyStr sender_contains &&
        !(pyContains (pyLower msg.sender) (pyLower (sender_contains.getD ""))) then
      filter_messages_loop sender_contains subject_contains read_status limit acc rest
    else if truthyStr subject_contains &&
        !(pyContains (pyLower msg.subject) (pyLower (subject_contains.getD ""))) then
      filter_messages_loop sender_contains subject_contains read_status limit acc rest
    else if (match read_status with
             | none => false
             | some b => msg.read_status != b) then
      filter_messages_loop sender_contains subject_contains read_status limit acc rest
    else
      let acc' := acc ++ [msg]
      if truthyNat limit && decide (acc'.length ≥ limit.getD 0) then acc'
      else filter_messages_loop sender_contains subject_contains read_status limit acc' rest

/-- `AppleMailConnector._filter_messages` (lines 229-249). -/
def filter_messages (messages : List MsgRec)
    (sender_contains subject_contains : Option String)
    (read_status : Option Bool) (limit : Option Nat) : List MsgRec :=
  filter_messages_loop sender_contains subject_contains read_status limit [] messages

/-- Specification-side predicate for the scan filter: sender and subject
must contain the respective filter as a case-insensitive substring when
the filter is truthy, and the read status must equal the requested one
when a status is requested. -/
def matchesFilters (sender_contains subject_contains : Option String)
    (read_status : Option Bool) (msg : MsgRec) : Bool :=
  (match sender_contains with
   | none => true
   | some s => pyContains (pyLower msg.sender) (pyLower s)) &&
  (match subject_contains with
   | none => true
   | some s => pyContains (pyLower msg.subject) (pyLower s)) &&
  (match read_status with
   | none => true
   | some b => msg.read_status == b)

/-! ### mail_connector.py — the search strategy engine -/

/-- `AppleMailConnector._is_whose_error` (lines 251-259). -/
def is_whose_error (error_msg : String) : Bool :=
  if pyContains error_msg "Illegal comparison or logical" then true
  else if pyContains error_msg "Can't get items" && pyContains error_msg "whose" then true
  else false

/-- Connector state: the `_whose_unsupported_accounts` set, modelled as a
duplicate-free-by-construction list.  `search_messages` is the only
method of `AppleMailConnector` that reads or writes this set, and the
only mutation is `add`. -/
structure ConnState where
  whose_unsupported_accounts : List String
deriving DecidableEq, Repr

/-- Python `set.add`. -/
def setAdd (x : String) (l : List String) : List String :=
  if x ∈ l then l else x :: l

/-- The two bridge invocations `search_messages` can make: the filtered
(whose-clause) query script, or the index-scan script of
`_search_messages_direct`, which contains no whose clause. -/
inductive BridgeCall where
  | filtered
  | scan
deriving DecidableEq, Repr

/-- `AppleMailConnector.search_messages` (lines 261-367) as a function of
the connector state and of the bridge outcomes.  `filteredOutcome` is
what `_run_applescript` would produce for the whose-clause script;
`scanOutcome` is the raw output of `_search_messages_direct` (the claim
concerns calls where the scan invocation itself succeeds, so it is passed
as a plain string).  Returns the new state, the trace of bridge
invocations in order, and the result.  Faithful to the source: a cached
account goes straight to the scan path; otherwise the filtered query is
attempted, and only a `MailAppleScriptError` (the generic kind — the
`except MailAppleScriptError` clause does not catch the sibling
not-found classes) whose text matches `_is_whose_error` triggers the
cache insertion and the in-call fallback; every other error re-raises. -/
def search_messages (st : ConnState) (account : String)
    (sender_contains subject_contains : Option String)
    (read_status : Option Bool) (limit : Option Nat)
    (filteredOutcome : Except MailErr String) (scanOutcome : String) :
    ConnState × List BridgeCall × Except MailErr (List MsgRec) :=
  if account ∈ st.whose_unsupported_accounts then
    (st, [.scan],
     .ok (filter_messages (parse_message_results scanOutcome)
            sender_contains subject_contains read_status limit))
  else
    match filteredOutcome with
    | .ok result => (st, [.filtered], .ok (parse_message_results result))
    | .error e =>
      if e.kind = .appleScript && is_whose_error e.msg then
        ({ whose_unsupported_accounts := setAdd account st.whose_unsupported_accounts },
         [.filtered, .scan],
         .ok (filter_messages (parse_message_results scanOutcome)
                sender_contains subject_contains read_status limit))
      else (st, [.filtered], .error e)

/-! ### mail_connector.py — mutation operations

An operation can fail with a Python `ValueError` (validation) or with one
of the bridge's `MailError` classes. -/

inductive OpError where
  | valueError (msg : String)
  | mail (e : MailErr)
deriving DecidableEq, Repr

/-- The two values interpolated into `mark_as_read`'s script
(mail_connector.py lines 512-536): the `{status}` fragment and the
`{id_list}` fragment.  The surrounding template is fixed text, so equal
fragments give equal script texts. -/
structure MarkAsReadScript where
  status : String
  id_list : String
deriving DecidableEq, Repr

/-- `AppleMailConnector.mark_as_read` (lines 495-539): empty ID list
short-circuits to 0 with no bridge call; otherwise the message IDs are
joined raw (`", ".join(message_ids)` — no escaping, no sanitization) into
one script, and the bridge's digit output becomes the count. -/
def mark_as_read (message_ids : List String) (read : Bool)
    (bridgeOutcome : Except MailErr String) :
    List MarkAsReadScript × Except OpError Nat :=
  if message_ids = [] then ([], .ok 0)
  else
    let status := if read then "true" else "false"
    let id_list := joinSep ", " message_ids
    match bridgeOutcome with
    | .error e => ([⟨status, id_list⟩], .error (.mail e))
    | .ok result => ([⟨status, id_list⟩], .ok (parse_count result))

/-- The values interpolated into `move_messages`' scripts (lines 821-869):
which of the two templates is used (`gmail_mode`), the escaped-sanitized
account and destination mailbox, and the raw-joined ID list. -/
structure MoveScript where
  gmail_mode : Bool
  account_safe : String
  mailbox_safe : String
  id_list : String
deriving DecidableEq, Repr

/-- `AppleMailConnector.move_messages` (lines 789-872): empty ID list
short-circuits to 0; account and destination pass
`escape_applescript_string(sanitize_input(...))`, IDs are joined raw;
`gmail_mode` selects the duplicate-then-delete template instead of the
mailbox-reassignment template. -/
def move_messages (message_ids : List String)
    (destination_mailbox account : String) (gmail_mode : Bool)
    (bridgeOutcome : Except MailErr String) :
    List MoveScript × Except OpError Nat :=
  if message_ids = [] then ([], .ok 0)
  else
    let account_safe := escape_applescript_string (sanitize_input account)
    let mailbox_safe := escape_applescript_string (sanitize_input destination_mailbox)
    let id_list := joinSep ", " message_ids
    match bridgeOutcome with
    | .error e => ([⟨gmail_mode, account_safe, mailbox_safe, id_list⟩], .error (.mail e))
    | .ok result => ([⟨gmail_mode, account_safe, mailbox_safe, id_list⟩], .ok (parse_count result))

/-- The values interpolated into `flag_message`'s script (lines 904-924):
the `{flag_index}` fragment, the `{flagged_status}` fragment (the text of
the `set flagged status of msg to ...` line), and the raw-joined ID
list. -/
structure FlagScript where
  flag_index : Int
  flagged_status : String
  id_list : String
deriving DecidableEq, Repr

/-- `AppleMailConnector.flag_message` (lines 874-927): empty ID list
short-circuits to 0 BEFORE color validation; an invalid color (by
`validate_flag_color`, which lowercases) raises `ValueError` before any
bridge call; otherwise the script sets `flag index` to
`get_flag_index(flag_color)` and `flagged status` to `"true"` unless the
color is exactly the string `"none"` (this comparison does NOT
lowercase). -/
def flag_message (message_ids : List String) (flag_color : String)
    (bridgeOutcome : Except MailErr String) :
    List FlagScript × Except OpError Nat :=
  if message_ids = [] then ([], .ok 0)
  else if !validate_flag_color flag_color then
    ([], .error (.valueError ("Invalid flag color: " ++ flag_color)))
  else
    match get_flag_index flag_color with
    | none =>
      ([], .error (.valueError ("Invalid flag color: " ++ flag_color ++
        ". Valid colors: none, orange, red, yellow, blue, green, purple, gray")))
    | some flag_index =>
      let flagged_status := if flag_color != "none" then "true" else "false"
      let id_list := joinSep ", " message_ids
      match bridgeOutcome with
      | .error e => ([⟨flag_index, flagged_status, id_list⟩], .error (.mail e))
      | .ok result => ([⟨flag_index, flagged_status, id_list⟩], .ok (parse_count result))

/-- The full script text of `delete_messages`' `permanent=True` branch
(lines 1017-1036), with `{id_list}` spliced in. -/
def delete_script_permanent (id_list : String) : String :=
  "\n            tell application \"Mail\"\n                set idList to \x7b" ++
  id_list ++
  "\x7d\n                set deleteCount to 0\n\n                repeat with msgId in idList\n                    repeat with acc in accounts\n                        repeat with mb in mailboxes of acc\n                            try\n                                set msg to first message of mb whose id is msgId\n                                delete msg\n                                set deleteCount to deleteCount + 1\n                            end try\n                        end repeat\n                    end repeat\n                end repeat\n\n                return deleteCount\n            end tell\n            "

/-- The full script text of `delete_messages`' `permanent=False`
(move-to-trash) branch (lines 1039-1058), with `{id_list}` spliced in. -/
def delete_script_trash (id_list : String) : String :=
  "\n            tell application \"Mail\"\n                set idList to \x7b" ++
  id_list ++
  "\x7d\n                set deleteCount to 0\n\n                repeat with msgId in idList\n                    repeat with acc in accounts\n                        repeat with mb in mailboxes of acc\n                            try\n                                set msg to first message of mb whose id is msgId\n                                delete msg\n                                set deleteCount to deleteCount + 1\n                            end try\n                        end repeat\n                    end repeat\n                end repeat\n\n                return deleteCount\n            end tell\n            "

/-- `AppleMailConnector.delete_messages` (lines 983-1061): empty ID list
short-circuits to 0; with the bulk check enabled (`skip_bulk_check=False`)
more than 100 IDs raise `ValueError`; otherwise the `permanent` flag
selects between the two script texts above and the bridge's digit output
becomes the count. -/
def delete_messages (message_ids : List String)
    (permanent skip_bulk_check : Bool)
    (bridgeOutcome : Except MailErr String) :
    List String × Except OpError Nat :=
  if message_ids = [] then ([], .ok 0)
  else if !skip_bulk_check && message_ids.length > 100 then
    ([], .error (.valueError ("Too many messages for bulk delete (" ++
      toString message_ids.length ++ "). Maximum is 100 without skip_bulk_check=True")))
  else
    let id_list := joinSep ", " message_ids
    let script := if permanent then delete_script_permanent id_list
                  else delete_script_trash id_list
    match bridgeOutcome with
    | .error e => ([script], .error (.mail e))
    | .ok result => ([script], .ok (parse_count result))

/-- Fuel-bounded core of Python `s.replace(pat, rep)` for an arbitrary
pattern: left-to-right, non-overlapping.  Every step consumes at least
one input character and one unit of fuel, so fuel equal to the input
length always suffices; the fuel makes the recursion structural (and so
kernel-computable). -/
def replaceSubFuel (pat rep : List Char) : Nat → List Char → List Char
  | _, [] => []
  | 0, l => l
  | fuel + 1, c :: cs =>
    if pat ≠ [] ∧ listStartsWith pat (c :: cs) = true then
      rep ++ replaceSubFuel pat rep fuel ((c :: cs).drop pat.length)
    else c :: replaceSubFuel pat rep fuel cs

/-- Python `s.replace(pat, rep)` for an arbitrary pattern (used by
`sanitize_mailbox_name` for the two-character pattern `".."`). -/
def replaceSub (pat rep l : List Char) : List Char :=
  replaceSubFuel pat rep l.length l

/-- utils.py `sanitize_mailbox_name` (lines 200-232): strip null bytes,
delete `".."`, `"/"` and `"\\"`, delete the characters `<>:"|?*`, then
trim whitespace. -/
def sanitize_mailbox_name (name : String) : String :=
  let d1 := name.data.filter (fun c => c ≠ '\x00')
  let d2 := replaceSub ['.', '.'] [] d1
  let d3 := d2.filter (fun c => c ≠ '/')
  let d4 := d3.filter (fun c => c ≠ '\\')
  let d5 := d4.filter (fun c => c ∉ ['<', '>', ':', '"', '|', '?', '*'])
  pyStrip (String.mk d5)

/-- The values interpolated into `create_mailbox`'s scripts (lines
961-978): which template (nested under a parent or top-level), the
escaped-sanitized account, the escaped-sanitized parent (`""` in the
top-level template) and the escaped sanitized mailbox name. -/
structure CreateMailboxScript where
  hasParent : Bool
  account_safe : String
  parent_safe : String
  name_safe : String
deriving DecidableEq, Repr

/-- `AppleMailConnector.create_mailbox` (lines 929-981): an empty
sanitized name raises `ValueError`; a truthy `parent_mailbox` selects the
nested template; the result is whether the bridge returned the literal
`"success"` sentinel. -/
def create_mailbox (account name : String) (parent_mailbox : Option String)
    (bridgeOutcome : Except MailErr String) :
    List CreateMailboxScript × Except OpError Bool :=
  let sanitized_name := sanitize_mailbox_name name
  if sanitized_name = "" then
    ([], .error (.valueError ("Invalid mailbox name: " ++ name)))
  else
    let account_safe := escape_applescript_string (sanitize_input account)
    let name_safe := escape_applescript_string sanitized_name
    let script : CreateMailboxScript :=
      if truthyStr parent_mailbox then
        ⟨true, account_safe,
         escape_applescript_string (sanitize_input (parent_mailbox.getD "")), name_safe⟩
      else ⟨false, account_safe, "", name_safe⟩
    match bridgeOutcome with
    | .error e => ([script], .error (.mail e))
    | .ok result => ([script], .ok (result == "success"))

/-- mail_connector.py line 461: the To-recipient list interpolated into
`send_email`'s script — each address is escaped but NOT sanitized (the
binder is named `recipients` because `to` is reserved in Lean). -/
def send_email_to_list (recipients : List String) : String :=
  joinSep ", " (recipients.map (fun addr => "\"" ++ escape_applescript_string addr ++ "\""))

/-- The caller-supplied values interpolated into `search_messages`'
filtered-query script (mail_connector.py lines 304-322): the
escaped-sanitized account and mailbox, the whose-clause condition list
accumulated for each truthy filter, the joined whose clause (the literal
`"true"` when no condition is present), and the limit clause. -/
structure SearchWhoseScript where
  account_safe : String
  mailbox_safe : String
  conditions : List String
  whose_clause : String
  limit_clause : String
deriving DecidableEq, Repr

/-- Fragment construction of `search_messages`' whose-clause script
(lines 304-322): `account_safe`/`mailbox_safe`/`sender_safe`/
`subject_safe` all pass `escape_applescript_string(sanitize_input(...))`;
a condition is appended only for a truthy filter; `whose_clause` is
`" and ".join(conditions)` or `"true"`; `limit_clause` is
`f"items 1 thru {limit} of"` for a truthy limit. -/
def search_whose_script (account mailbox : String)
    (sender_contains subject_contains : Option String)
    (read_status : Option Bool) (limit : Option Nat) : SearchWhoseScript :=
  let account_safe := escape_applescript_string (sanitize_input account)
  let mailbox_safe := escape_applescript_string (sanitize_input mailbox)
  let conditions :=
    (if truthyStr sender_contains then
      ["sender contains \"" ++
        escape_applescript_string (sanitize_input (sender_contains.getD "")) ++ "\""]
     else []) ++
    (if truthyStr subject_contains then
      ["subject contains \"" ++
        escape_applescript_string (sanitize_input (subject_contains.getD "")) ++ "\""]
     else []) ++
    (match read_status with
     | none => []
     | some b => ["read status is " ++ (if b then "true" else "false")])
  let whose_clause := if conditions ≠ [] then joinSep " and " conditions else "true"
  let limit_clause :=
    if truthyNat limit then "items 1 thru " ++ toString (limit.getD 0) ++ " of" else ""
  ⟨account_safe, mailbox_safe, conditions, whose_clause, limit_clause⟩

/-- mail_connector.py line 383: `get_message`'s interpolated message ID. -/
def get_message_id_safe (message_id : String) : String :=
  escape_applescript_string (sanitize_input message_id)

/-- mail_connector.py line 655: `get_attachments`' interpolated message
ID. -/
def get_attachments_id_safe (message_id : String) : String :=
  escape_applescript_string (sanitize_input message_id)

/-- mail_connector.py line 748: `save_attachments`' interpolated message
ID. -/
def save_attachments_id_safe (message_id : String) : String :=
  escape_applescript_string (sanitize_input message_id)

/-- The caller-supplied values interpolated into `send_email`'s script
(lines 457-463): escaped-sanitized subject and body, and the three
recipient lists, each address escaped but not sanitized. -/
structure SendEmailScript where
  subject_safe : String
  body_safe : String
  to_list : String
  cc_list : String
  bcc_list : String
deriving DecidableEq, Repr

/-- Fragment construction of `send_email`'s script (lines 457-463);
`cc`/`bcc` default to `[]` (`cc or []`). -/
def send_email_script (subject body : String) (recipients : List String)
    (cc bcc : Option (List String)) : SendEmailScript :=
  ⟨escape_applescript_string (sanitize_input subject),
   escape_applescript_string (sanitize_input body),
   send_email_to_list recipients,
   send_email_to_list (cc.getD []),
   send_email_to_list (bcc.getD [])⟩

/-- The caller-supplied values interpolated into `reply_to_message`'s
script (lines 1087-1094): the message ID is interpolated RAW into the
`whose id is "{message_id}"` clause, the body is escaped-sanitized, and
`reply_all` selects the reply command text. -/
structure ReplyScript where
  message_id : String
  body_safe : String
  reply_type : String
deriving DecidableEq, Repr

/-- Fragment construction of `reply_to_message`'s script (lines
1087-1094). -/
def reply_to_message_script (message_id body : String) (reply_all : Bool) : ReplyScript :=
  ⟨message_id, escape_applescript_string (sanitize_input body),
   if reply_all then "reply to all" else "reply"⟩

/-- utils.py `format_applescript_list` (lines 57-72):
`"{" + ", ".join(f'"{escape_applescript_string(item)}"') + "}"` — each
item escaped but NOT sanitized. -/
def format_applescript_list (items : List String) : String :=
  "\x7b" ++ joinSep ", " (items.map (fun item => "\"" ++ escape_applescript_string item ++ "\"")) ++ "\x7d"

/-- The caller-supplied values interpolated into `forward_message`'s
script (lines 1172-1182, reached after recipient validation): the
message ID RAW, the escaped-sanitized body, and the recipient lists via
`format_applescript_list` (`'""'` for a falsy cc/bcc). -/
structure ForwardScript where
  message_id : String
  body_safe : String
  to_list : String
  cc_list : String
  bcc_list : String
deriving DecidableEq, Repr

/-- Fragment construction of `forward_message`'s script (lines
1172-1182). -/
def forward_message_script (message_id body : String) (recipients : List String)
    (cc bcc : Option (List String)) : ForwardScript :=
  ⟨message_id, escape_applescript_string (sanitize_input body),
   format_applescript_list recipients,
   (match cc with
    | some (x :: xs) => format_applescript_list (x :: xs)
    | _ => "\"\""),
   (match bcc with
    | some (x :: xs) => format_applescript_list (x :: xs)
    | _ => "\"\"")⟩

/-! ### security.py -/

/-- One entry of `OperationLogger.operations` (security.py lines 31-37).
The wall-clock `timestamp` field is not modelled (it carries no logical
content); the remaining fields are the operation name, the parameter
snapshot and the outcome string. -/
structure LogEntry where
  operation : String
  parameters : List (String × String)
  result : String
deriving DecidableEq, Repr

/-- `OperationLogger.log_operation` (lines 20-38): appends exactly one
entry to the process-wide list. -/
def log_operation (log : List LogEntry) (operation : String)
    (parameters : List (String × String)) (result : String) : List LogEntry :=
  log ++ [⟨operation, parameters, result⟩]

/-- `OperationLogger.get_recent_operations` (lines 40-50): Python
`self.operations[-limit:]` (the whole list when `limit` is 0). -/
def get_recent_operations (log : List LogEntry) (limit : Nat) : List LogEntry :=
  if limit = 0 then log else log.drop (log.length - limit)

/-- `validate_bulk_operation` (security.py lines 127-144): zero items is
itself a validation failure. -/
def validate_bulk_operation (item_count : Nat) (max_items : Nat) : Bool × String :=
  if item_count = 0 then (false, "No items specified for operation")
  else if item_count > max_items then
    (false, "Too many items (" ++ toString item_count ++ "), maximum is " ++
      toString max_items)
  else (true, "")

/-! ### server.py — the exposed tools

Each tool is modelled as a function of its arguments, the bridge outcome
it would observe, and the operation log, returning the new log, the
scripts dispatched, and the outward result shape (success flag, coarse
error-type tag, count). -/

structure ToolResult where
  success : Bool
  error_type : Option String
  count : Option Nat
deriving DecidableEq, Repr

/-- server.py `mark_as_read` (lines 328-377): `validate_bulk_operation`
runs FIRST (so an empty ID list fails validation with
`error_type="validation_error"`); on success one log entry is appended;
on any exception nothing is logged and the error type is `"unknown"`. -/
def server_mark_as_read (message_ids : List String) (read : Bool)
    (bridgeOutcome : Except MailErr String) (log : List LogEntry) :
    List LogEntry × List MarkAsReadScript × ToolResult :=
  let v := validate_bulk_operation message_ids.length 100
  if !v.1 then (log, [], ⟨false, some "validation_error", none⟩)
  else
    match mark_as_read message_ids read bridgeOutcome with
    | (scripts, .ok count) =>
      (log_operation log "mark_as_read"
         [("count", toString message_ids.length), ("read", toString read)] "success",
       scripts, ⟨true, none, some count⟩)
    | (scripts, .error _) => (log, scripts, ⟨false, some "unknown", none⟩)

/-- server.py `move_messages` (lines 675-748): empty ID list returns a
zero-count success before the connector is called; the connector errors
are mapped to coarse tags; NO call path appends to the operation log. -/
def server_move_messages (message_ids : List String)
    (destination_mailbox account : String) (gmail_mode : Bool)
    (bridgeOutcome : Except MailErr String) (log : List LogEntry) :
    List LogEntry × List MoveScript × ToolResult :=
  if message_ids = [] then (log, [], ⟨true, none, some 0⟩)
  else
    match move_messages message_ids destination_mailbox account gmail_mode bridgeOutcome with
    | (scripts, .ok count) => (log, scripts, ⟨true, none, some count⟩)
    | (scripts, .error (.mail ⟨.mailboxNotFound, _⟩)) =>
      (log, scripts, ⟨false, some "mailbox_not_found", none⟩)
    | (scripts, .error (.mail ⟨.accountNotFound, _⟩)) =>
      (log, scripts, ⟨false, some "account_not_found", none⟩)
    | (scripts, .error _) => (log, scripts, ⟨false, some "unknown", none⟩)

/-- server.py `flag_message` (lines 751-814): empty ID list returns a
zero-count success; `ValueError` maps to `"validation_error"`,
message-not-found to `"message_not_found"`; NO call path appends to the
operation log. -/
def server_flag_message (message_ids : List String) (flag_color : String)
    (bridgeOutcome : Except MailErr String) (log : List LogEntry) :
    List LogEntry × List FlagScript × ToolResult :=
  if message_ids = [] then (log, [], ⟨true, none, some 0⟩)
  else
    match flag_message message_ids flag_color bridgeOutcome with
    | (scripts, .ok count) => (log, scripts, ⟨true, none, some count⟩)
    | (scripts, .error (.valueError _)) =>
      (log, scripts, ⟨false, some "validation_error", none⟩)
    | (scripts, .error (.mail ⟨.messageNotFound, _⟩)) =>
      (log, scripts, ⟨false, some "message_not_found", none⟩)
    | (scripts, .error _) => (log, scripts, ⟨false, some "unknown", none⟩)

/-- server.py `delete_messages` (lines 895-972): empty ID list returns a
zero-count success; more than 100 IDs fail validation before the
connector is called; the connector runs with `skip_bulk_check=False`; NO
call path appends to the operation log. -/
def server_delete_messages (message_ids : List String) (permanent : Bool)
    (bridgeOutcome : Except MailErr String) (log : List LogEntry) :
    List LogEntry × List String × ToolResult :=
  if message_ids = [] then (log, [], ⟨true, none, some 0⟩)
  else if message_ids.length > 100 then
    (log, [], ⟨false, some "validation_error", none⟩)
  else
    match delete_messages message_ids permanent false bridgeOutcome with
    | (scripts, .ok count) => (log, scripts, ⟨true, none, some count⟩)
    | (scripts, .error (.valueError _)) =>
      (log, scripts, ⟨false, some "validation_error", none⟩)
    | (scripts, .error (.mail ⟨.messageNotFound, _⟩)) =>
      (log, scripts, ⟨false, some "message_not_found", none⟩)
    | (scripts, .error _) => (log, scripts, ⟨false, some "unknown", none⟩)

/-- server.py `create_mailbox` (lines 817-892): an empty or
whitespace-only name fails validation before the connector runs; the
connector's `ValueError` maps to `"validation_error"`, account-not-found
and generic script errors to their tags; NO call path appends to the
operation log. -/
def server_create_mailbox (account name : String) (parent_mailbox : Option String)
    (bridgeOutcome : Except MailErr String) (log : List LogEntry) :
    List LogEntry × List CreateMailboxScript × ToolResult :=
  if name = "" || pyStrip name = "" then
    (log, [], ⟨false, some "validation_error", none⟩)
  else
    match create_mailbox account name parent_mailbox bridgeOutcome with
    | (scripts, .ok success) => (log, scripts, ⟨success, none, none⟩)
    | (scripts, .error (.valueError _)) =>
      (log, scripts, ⟨false, some "validation_error", none⟩)
    | (scripts, .error (.mail ⟨.accountNotFound, _⟩)) =>
      (log, scripts, ⟨false, some "account_not_found", none⟩)
    | (scripts, .error (.mail ⟨.appleScript, _⟩)) =>
      (log, scripts, ⟨false, some "applescript_error", none⟩)
    | (scripts, .error _) => (log, scripts, ⟨false, some "unknown", none⟩)

/-! ## Helper lemmas -/

theorem parse_line_step_eq (acc : List MsgRec) (line : List Char) :
    parse_line_step acc line = acc ++ (decode_line line).toList := by
  unfold parse_line_step decode_line
  by_cases h : line = []
  · simp [h]
  · simp only [h, if_false]
    split <;> simp

theorem parse_foldl (lines : List (List Char)) (acc : List MsgRec) :
    lines.foldl parse_line_step acc = acc ++ lines.filterMap decode_line := by
  induction lines generalizing acc with
  | nil => simp
  | cons l ls ih =>
    simp only [List.foldl_cons, List.filterMap_cons]
    rw [ih, parse_line_step_eq]
    cases h : decode_line l <;> simp [h]

/-! ## Claim C10 -/

/-- Claim C10: the multi-record message decoder is total and silently
tolerant.  (i) On every raw output string `_parse_message_results` equals
the total function that splits into lines and decodes each line
independently (so it never raises); (ii) every empty line and every line
with fewer than 5 pipe-separated fields decodes to nothing and is thereby
silently omitted; (iii) every record returned carries exactly the five
positional fields taken from the line, with `read_status` true iff the
fifth field lowercased equals `"true"`. -/
theorem spec_c10 :
    (∀ result : String,
      parse_message_results result = (splitChar '\n' result.data).filterMap decode_line) ∧
    (∀ line : List Char,
      line = [] ∨ ((splitChar '|' line).map String.mk).length < 5 →
      decode_line line = none) ∧
    (∀ (line : List Char) (m : MsgRec),
      decode_line line = some m →
      m.id = ((splitChar '|' line).map String.mk).getD 0 "" ∧
      m.subject = ((splitChar '|' line).map String.mk).getD 1 "" ∧
      m.sender = ((splitChar '|' line).map String.mk).getD 2 "" ∧
      m.date_received = ((splitChar '|' line).map String.mk).getD 3 "" ∧
      (m.read_status = true ↔
        pyLower (((splitChar '|' line).map String.mk).getD 4 "") = "true")) := by
  refine ⟨?_, ?_, ?_⟩
  · intro result
    unfold parse_message_results
    by_cases h : result = ""
    · subst h
      simp [splitChar, decode_line]
    · simp only [h, if_false]
      rw [parse_foldl]
      simp
  · intro line h
    unfold decode_line
    rcases h with h | h
    · simp [h]
    · by_cases h0 : line = []
      · simp [h0]
      · simp only [h0, if_false]
        have : ¬ ((splitChar '|' line).map String.mk).length ≥ 5 := by omega
        simp only [ge_iff_le]
        rw [if_neg ?_]
        · simp only [List.length_map] at this ⊢
          omega
  · intro line m h
    unfold decode_line at h
    by_cases h0 : line = []
    · simp [h0] at h
    · simp only [h0, if_false] at h
      by_cases h5 : ((splitChar '|' line).map String.mk).length ≥ 5
      · rw [if_pos (by simpa using h5)] at h
        cases h
        refine ⟨by simp, by simp, by simp, by simp, ?_⟩
        simp [beq_iff_eq]
      · rw [if_neg (by simpa using h5)] at h
        cases h

/-- Witness for C10 on concrete inputs: a 4-field line is omitted, and a
decoded line's fields line up with its pipe-separated chunks. -/
theorem spec_c10_witness :
    decode_line ("a|b|c|d".data) = none ∧
    parse_message_results "x" = (splitChar '\n' "x".data).filterMap decode_line := by
  exact ⟨spec_c10.2.1 ("a|b|c|d".data) (Or.inr (by decide)), spec_c10.1 "x"⟩

/-! ## Claim C4 -/

theorem splitMaxAux_zero (sep : Char) (cs : List Char) :
    splitMaxAux sep cs 0 = [cs] := by
  cases cs <;> simp [splitMaxAux]

theorem splitMaxAux_chunk (sep : Char) (a rest : List Char) (n : Nat)
    (h : sep ∉ a) :
    splitMaxAux sep (a ++ sep :: rest) (n + 1) = a :: splitMaxAux sep rest n := by
  induction a with
  | nil => simp [splitMaxAux]
  | cons c cs ih =>
    have hc : ¬ c = sep := by
      intro hh
      exact h (hh ▸ List.mem_cons_self c cs)
    have ih' := ih (fun hm => h (List.mem_cons_of_mem c hm))
    simp only [List.cons_append, splitMaxAux, hc, if_false]
    rw [show splitMaxAux sep (cs.append (sep :: rest)) (n + 1) =
          cs :: splitMaxAux sep rest n from ih']

theorem splitMax_seven (content : List Char) :
    splitMaxAux '|' ("101|Subject|a@b.com|Mon Jan 1 2024|false|true|".data ++ content) 6 =
      ["101".data, "Subject".data, "a@b.com".data, "Mon Jan 1 2024".data,
       "false".data, "true".data, content] := by
  have h1 := splitMaxAux_chunk '|' "101".data
    ("Subject|a@b.com|Mon Jan 1 2024|false|true|".data ++ content) 5 (by decide)
  have h2 := splitMaxAux_chunk '|' "Subject".data
    ("a@b.com|Mon Jan 1 2024|false|true|".data ++ content) 4 (by decide)
  have h3 := splitMaxAux_chunk '|' "a@b.com".data
    ("Mon Jan 1 2024|false|true|".data ++ content) 3 (by decide)
  have h4 := splitMaxAux_chunk '|' "Mon Jan 1 2024".data
    ("false|true|".data ++ content) 2 (by decide)
  have h5 := splitMaxAux_chunk '|' "false".data ("true|".data ++ content) 1 (by decide)
  have h6 := splitMaxAux_chunk '|' "true".data content 0 (by decide)
  exact h1.trans (congrArg (List.cons "101".data)
    (h2.trans (congrArg (List.cons "Subject".data)
      (h3.trans (congrArg (List.cons "a@b.com".data)
        (h4.trans (congrArg (List.cons "Mon Jan 1 2024".data)
          (h5.trans (congrArg (List.cons "false".data)
            (h6.trans (congrArg (List.cons "true".data)
              (splitMaxAux_zero '|' content))))))))))))

/-- Claim C4: decoding the single record
`"101|Subject|a@b.com|Mon Jan 1 2024|false"` yields a record with id
`"101"` and `read_status = false` (and the other three positional fields);
and in the 7-field shape of `get_message` the 7th (content) field is
preserved verbatim for EVERY content string — pipes included — because
`split("|", 6)` stops after the sixth separator and the content chunk is
never re-split. -/
theorem spec_c4 :
    parse_message_results "101|Subject|a@b.com|Mon Jan 1 2024|false" =
      [{ id := "101", subject := "Subject", sender := "a@b.com",
         date_received := "Mon Jan 1 2024", read_status := false }] ∧
    ∀ content : String,
      get_message_parse ("101|Subject|a@b.com|Mon Jan 1 2024|false|true|" ++ content) =
        some { id := "101", subject := "Subject", sender := "a@b.com",
               date_received := "Mon Jan 1 2024", read_status := false, flagged := true,
               content := content } := by
  constructor
  · decide
  · intro content
    unfold get_message_parse
    have hdata : ("101|Subject|a@b.com|Mon Jan 1 2024|false|true|" ++ content).data =
        "101|Subject|a@b.com|Mon Jan 1 2024|false|true|".data ++ content.data := rfl
    rw [hdata, splitMax_seven content.data]
    rfl

/-! ## Claim C5 -/

theorem listStartsWith_nil (l : List Char) : listStartsWith [] l = true := rfl

theorem listContains_nil_needle (hay : List Char) : listContains hay [] = true := by
  cases hay <;> simp [listContains, listStartsWith]

theorem pyContains_empty_needle (s : String) : pyContains s "" = true :=
  listContains_nil_needle s.data

/-- The sender guard of `_filter_messages` skips exactly the messages the
specification predicate's sender conjunct rejects. -/
theorem sender_guard_eq (sc : Option String) (m : MsgRec) :
    (truthyStr sc && !(pyContains (pyLower m.sender) (pyLower (sc.getD "")))) =
      !(match sc with
        | none => true
        | some s => pyContains (pyLower m.sender) (pyLower s)) := by
  cases sc with
  | none => simp [truthyStr]
  | some s =>
    by_cases hs : s = ""
    · subst hs
      simp [truthyStr, pyLower, pyContains_empty_needle]
    · simp [truthyStr, hs]

theorem subject_guard_eq (sj : Option String) (m : MsgRec) :
    (truthyStr sj && !(pyContains (pyLower m.subject) (pyLower (sj.getD "")))) =
      !(match sj with
        | none => true
        | some s => pyContains (pyLower m.subject) (pyLower s)) := by
  cases sj with
  | none => simp [truthyStr]
  | some s =>
    by_cases hs : s = ""
    · subst hs
      simp [truthyStr, pyLower, pyContains_empty_needle]
    · simp [truthyStr, hs]

theorem read_guard_eq (rs : Option Bool) (m : MsgRec) :
    (match rs with
     | none => false
     | some b => m.read_status != b) =
      !(match rs with
        | none => true
        | some b => m.read_status == b) := by
  cases rs <;> simp [bne]

/-- Skipped step: a message rejected by `matchesFilters` leaves the loop
state untouched. -/
theorem fml_cons_skip (sc sj : Option String) (rs : Option Bool) (lim : Option Nat)
    (acc : List MsgRec) (m : MsgRec) (rest : List MsgRec)
    (h : matchesFilters sc sj rs m = false) :
    filter_messages_loop sc sj rs lim acc (m :: rest) =
      filter_messages_loop sc sj rs lim acc rest := by
  unfold matchesFilters at h
  simp only [filter_messages_loop, sender_guard_eq, subject_guard_eq, read_guard_eq]
  rcases Bool.and_eq_false_iff.mp h with h1 | h2
  rcases Bool.and_eq_false_iff.mp h1 with ha | hb
  · simp [ha]
  · simp [hb]
  · simp [h2]

/-- Kept step: a message accepted by `matchesFilters` is appended, then
the limit check decides between stopping and continuing. -/
theorem fml_cons_keep (sc sj : Option String) (rs : Option Bool) (lim : Option Nat)
    (acc : List MsgRec) (m : MsgRec) (rest : List MsgRec)
    (h : matchesFilters sc sj rs m = true) :
    filter_messages_loop sc sj rs lim acc (m :: rest) =
      (if truthyNat lim && decide ((acc ++ [m]).length ≥ lim.getD 0) then acc ++ [m]
       else filter_messages_loop sc sj rs lim (acc ++ [m]) rest) := by
  unfold matchesFilters at h
  obtain ⟨h12, h3⟩ := Bool.and_eq_true_iff.mp h
  obtain ⟨h1, h2⟩ := Bool.and_eq_true_iff.mp h12
  simp only [filter_messages_loop, sender_guard_eq, subject_guard_eq, read_guard_eq,
    h1, h2, h3, Bool.not_true]
  simp

theorem fml_nolimit (sc sj : Option String) (rs : Option Bool) (lim : Option Nat)
    (hlim : truthyNat lim = false) (msgs acc : List MsgRec) :
    filter_messages_loop sc sj rs lim acc msgs =
      acc ++ msgs.filter (matchesFilters sc sj rs) := by
  induction msgs generalizing acc with
  | nil => simp [filter_messages_loop]
  | cons m rest ih =>
    by_cases hm : matchesFilters sc sj rs m = true
    · rw [fml_cons_keep sc sj rs lim acc m rest hm, if_neg (by simp [hlim]), ih]
      simp [hm]
    · rw [fml_cons_skip sc sj rs lim acc m rest (by simpa using hm), ih]
      simp [List.filter_cons, hm]

theorem fml_limit (sc sj : Option String) (rs : Option Bool) (l : Nat)
    (msgs acc : List MsgRec) (hl : 0 < l) (hacc : acc.length < l) :
    filter_messages_loop sc sj rs (some l) acc msgs =
      acc ++ (msgs.filter (matchesFilters sc sj rs)).take (l - acc.length) := by
  induction msgs generalizing acc with
  | nil => simp [filter_messages_loop]
  | cons m rest ih =>
    by_cases hm : matchesFilters sc sj rs m = true
    · rw [fml_cons_keep sc sj rs (some l) acc m rest hm]
      have hlen : (acc ++ [m]).length = acc.length + 1 := by simp
      by_cases hstop : acc.length + 1 ≥ l
      · have heq : l - acc.length = 1 := by omega
        rw [if_pos]
        · simp [List.filter_cons, hm, heq]
        · simp only [truthyNat, hlen, Option.getD_some]
          refine Bool.and_eq_true_iff.mpr ⟨?_, by simpa using hstop⟩
          simp only [bne_iff_ne, ne_eq]
          omega
      · rw [if_neg]
        · rw [ih (acc ++ [m]) (by omega)]
          have harith : l - acc.length = (l - (acc.length + 1)) + 1 := by omega
          simp only [List.filter_cons, hm, if_true, hlen, harith, List.take_succ_cons,
            List.append_assoc, List.cons_append, List.nil_append]
        · simp only [truthyNat, hlen, Option.getD_some]
          intro hcontra
          exact hstop (by simpa using (Bool.and_eq_true_iff.mp hcontra).2)
    · rw [fml_cons_skip sc sj rs (some l) acc m rest (by simpa using hm),
        ih acc hacc]
      simp [List.filter_cons, hm]

/-- Claim C5: the scan-path local filter returns exactly the records
matching all present filters (case-insensitive substring for
sender/subject, exact equality for read status), in the original relative
order; with a positive limit it returns exactly the first
`min(limit, matches)` of them (the `filter`-then-`take` normal form). -/
theorem spec_c5 :
    (∀ (msgs : List MsgRec) (sc sj : Option String) (rs : Option Bool),
      filter_messages msgs sc sj rs none = msgs.filter (matchesFilters sc sj rs)) ∧
    (∀ (msgs : List MsgRec) (sc sj : Option String) (rs : Option Bool) (l : Nat),
      0 < l →
      filter_messages msgs sc sj rs (some l) =
        (msgs.filter (matchesFilters sc sj rs)).take l ∧
      (filter_messages msgs sc sj rs (some l)).length =
        min l (msgs.filter (matchesFilters sc sj rs)).length) := by
  constructor
  · intro msgs sc sj rs
    exact fml_nolimit sc sj rs none rfl msgs []
  · intro msgs sc sj rs l hl
    have h := fml_limit sc sj rs l msgs [] hl (by simpa using hl)
    have h' : filter_messages msgs sc sj rs (some l) =
        (msgs.filter (matchesFilters sc sj rs)).take l := by
      unfold filter_messages
      simpa using h
    exact ⟨h', by rw [h']; simp [Nat.min_comm]⟩

/-- Witness for C5: the spec's fixture — three matching records and
limit 2 return exactly the first two, in order. -/
theorem spec_c5_witness :
    filter_messages
      [{ id := "1", subject := "s1", sender := "Alice@Example.com",
         date_received := "d1", read_status := true },
       { id := "2", subject := "s2", sender := "alice@example.com",
         date_received := "d2", read_status := false },
       { id := "3", subject := "s3", sender := "ALICE@EXAMPLE.COM",
         date_received := "d3", read_status := true }]
      (some "alice@") none none (some 2) =
      [{ id := "1", subject := "s1", sender := "Alice@Example.com",
         date_received := "d1", read_status := true },
       { id := "2", subject := "s2", sender := "alice@example.com",
         date_received := "d2", read_status := false }] := by
  refine ((spec_c5.2 _ (some "alice@") none none 2 (by decide)).1).trans ?_
  decide

/-! ## Claim C1 -/

theorem setAdd_subset (x : String) (l : List String) : l ⊆ setAdd x l := by
  unfold setAdd
  by_cases h : x ∈ l
  · simp [h]
  · simp only [h, if_false]
    exact List.subset_cons_self x l

/-- Claim C1: for an account not in the whose-unsupported cache,
`search_messages` attempts the filtered query first (i); if that attempt
fails with a generic script error matching one of the two
whose-unsupported signatures, the account is added to the cache and the
same call falls back to the scan path, returning locally filtered results
without raising (ii); the cache only ever grows — no call removes an
account (iii); once an account is in the cache every call goes directly
to the scan path with exactly one bridge invocation and no filtered
attempt (iv); and any non-matching error from the filtered attempt
propagates unchanged, leaving the cache untouched (v). -/
theorem spec_c1 :
    (∀ (st : ConnState) (account : String) (sc sj : Option String) (rs : Option Bool)
       (lim : Option Nat) (fo : Except MailErr String) (so : String),
      account ∉ st.whose_unsupported_accounts →
      ((search_messages st account sc sj rs lim fo so).2.1).head? = some .filtered) ∧
    (∀ (st : ConnState) (account : String) (sc sj : Option String) (rs : Option Bool)
       (lim : Option Nat) (e : MailErr) (so : String),
      account ∉ st.whose_unsupported_accounts →
      e.kind = .appleScript → is_whose_error e.msg = true →
      search_messages st account sc sj rs lim (.error e) so =
        (⟨setAdd account st.whose_unsupported_accounts⟩, [.filtered, .scan],
         .ok (filter_messages (parse_message_results so) sc sj rs lim))) ∧
    (∀ (st : ConnState) (account : String) (sc sj : Option String) (rs : Option Bool)
       (lim : Option Nat) (fo : Except MailErr String) (so : String),
      st.whose_unsupported_accounts ⊆
        (search_messages st account sc sj rs lim fo so).1.whose_unsupported_accounts) ∧
    (∀ (st : ConnState) (account : String) (sc sj : Option String) (rs : Option Bool)
       (lim : Option Nat) (fo : Except MailErr String) (so : String),
      account ∈ st.whose_unsupported_accounts →
      search_messages st account sc sj rs lim fo so =
        (st, [.scan],
         .ok (filter_messages (parse_message_results so) sc sj rs lim))) ∧
    (∀ (st : ConnState) (account : String) (sc sj : Option String) (rs : Option Bool)
       (lim : Option Nat) (e : MailErr) (so : String),
      account ∉ st.whose_unsupported_accounts →
      (e.kind ≠ .appleScript ∨ is_whose_error e.msg = false) →
      search_messages st account sc sj rs lim (.error e) so =
        (st, [.filtered], .error e)) := by
  refine ⟨?_, ?_, ?_, ?_, ?_⟩
  · intro st account sc sj rs lim fo so h
    unfold search_messages
    simp only [h, if_false]
    cases fo with
    | ok r => rfl
    | error e =>
      by_cases hw : e.kind = .appleScript ∧ is_whose_error e.msg = true
      · simp [hw.1, hw.2]
      · have : (decide (e.kind = .appleScript) && is_whose_error e.msg) = false := by
          by_cases hk : e.kind = .appleScript
          · have := fun hm => hw ⟨hk, hm⟩
            simp [hk, Bool.eq_false_iff.mpr this]
          · simp [hk]
        simp [this]
  · intro st account sc sj rs lim e so h hk hw
    unfold search_messages
    simp [h, hk, hw]
  · intro st account sc sj rs lim fo so
    unfold search_messages
    by_cases h : account ∈ st.whose_unsupported_accounts
    · simp [h]
    · simp only [h, if_false]
      cases fo with
      | ok r => exact fun x hx => hx
      | error e =>
        by_cases hw : (decide (e.kind = .appleScript) && is_whose_error e.msg) = true
        · simp only [hw, if_true]
          exact setAdd_subset account st.whose_unsupported_accounts
        · simp only [Bool.not_eq_true] at hw
          simp only [hw, if_false]
          exact fun x hx => hx
  · intro st account sc sj rs lim fo so h
    unfold search_messages
    simp [h]
  · intro st account sc sj rs lim e so h hne
    unfold search_messages
    have : (decide (e.kind = .appleScript) && is_whose_error e.msg) = false := by
      rcases hne with hk | hw
      · simp [hk]
      · simp [hw]
    simp [h, this]

/-- Witness for C1: a concrete fresh account hitting the
`Illegal comparison or logical` signature is cached and the call returns
the locally filtered scan results without raising; the same fresh account
with a non-matching error propagates it unchanged; a cached account scans
directly. -/
theorem spec_c1_witness :
    search_messages ⟨[]⟩ "Exchange" none none none none
        (.error ⟨.appleScript, "Mail got an error: Illegal comparison or logical operator"⟩)
        "101|S|a@b|Mon|false" =
      (⟨["Exchange"]⟩, [.filtered, .scan],
       .ok [{ id := "101", subject := "S", sender := "a@b",
              date_received := "Mon", read_status := false }]) ∧
    search_messages ⟨[]⟩ "Exchange" none none none none
        (.error ⟨.accountNotFound, "Can't get account \"Exchange\""⟩) "" =
      (⟨[]⟩, [.filtered], .error ⟨.accountNotFound, "Can't get account \"Exchange\""⟩) ∧
    search_messages ⟨["Exchange"]⟩ "Exchange" none none none none
        (.error ⟨.appleScript, "ignored"⟩) "101|S|a@b|Mon|false" =
      (⟨["Exchange"]⟩, [.scan],
       .ok [{ id := "101", subject := "S", sender := "a@b",
              date_received := "Mon", read_status := false }]) := by
  refine ⟨?_, ?_, ?_⟩
  · exact (spec_c1.2.1 ⟨[]⟩ "Exchange" none none none none
      ⟨.appleScript, "Mail got an error: Illegal comparison or logical operator"⟩
      "101|S|a@b|Mon|false" (by simp) rfl (by decide)).trans rfl
  · exact spec_c1.2.2.2.2 ⟨[]⟩ "Exchange" none none none none
      ⟨.accountNotFound, "Can't get account \"Exchange\""⟩ "" (by simp)
      (Or.inl (by decide))
  · exact (spec_c1.2.2.2.1 ⟨["Exchange"]⟩ "Exchange" none none none none
      (.error ⟨.appleScript, "ignored"⟩) "101|S|a@b|Mon|false" (by simp)).trans rfl

/-! ## Claim C3 -/

/-- Counterexample for C3: timeout expiry does NOT raise a distinct
`ScriptTimeout` kind — it raises the same generic `MailAppleScriptError`
kind (`.appleScript`) that an arbitrary unclassified failure raises, only
with a timeout message (there is no timeout class in `exceptions.py`, and
`tests/unit/test_mail_connector.py` asserts exactly this
`MailAppleScriptError`). -/
theorem spec_c3_counterexample :
    run_applescript_classify 60 .timeout =
      .error ⟨.appleScript, "Script execution timeout after 60s"⟩ ∧
    run_applescript_classify 60 (.exited 1 "" "some unclassified failure") =
      .error ⟨.appleScript, "some unclassified failure"⟩ := by
  exact ⟨rfl, rfl⟩

/-- Claim C3 (amended): on non-zero exit the stripped stderr is matched
first against `"Can't get account"` (→ AccountNotFound), then
`"Can't get mailbox"` (→ MailboxNotFound), then `"Can't get message"`
(→ MessageNotFound), and otherwise raises the generic
`MailAppleScriptError` carrying the stripped error text; on zero exit the
stripped stdout is returned with no error; and timeout expiry raises the
SAME generic `MailAppleScriptError` kind (not a distinct timeout kind),
carrying `"Script execution timeout after {timeout}s"`. -/
theorem spec_c3_amended :
    (∀ (ts : Nat) (rc : Int) (out err : String), rc ≠ 0 →
      pyContains (pyStrip err) "Can't get account" = true →
      run_applescript_classify ts (.exited rc out err) =
        .error ⟨.accountNotFound, pyStrip err⟩) ∧
    (∀ (ts : Nat) (rc : Int) (out err : String), rc ≠ 0 →
      pyContains (pyStrip err) "Can't get account" = false →
      pyContains (pyStrip err) "Can't get mailbox" = true →
      run_applescript_classify ts (.exited rc out err) =
        .error ⟨.mailboxNotFound, pyStrip err⟩) ∧
    (∀ (ts : Nat) (rc : Int) (out err : String), rc ≠ 0 →
      pyContains (pyStrip err) "Can't get account" = false →
      pyContains (pyStrip err) "Can't get mailbox" = false →
      pyContains (pyStrip err) "Can't get message" = true →
      run_applescript_classify ts (.exited rc out err) =
        .error ⟨.messageNotFound, pyStrip err⟩) ∧
    (∀ (ts : Nat) (rc : Int) (out err : String), rc ≠ 0 →
      pyContains (pyStrip err) "Can't get account" = false →
      pyContains (pyStrip err) "Can't get mailbox" = false →
      pyContains (pyStrip err) "Can't get message" = false →
      run_applescript_classify ts (.exited rc out err) =
        .error ⟨.appleScript, pyStrip err⟩) ∧
    (∀ (ts : Nat) (out err : String),
      run_applescript_classify ts (.exited 0 out err) = .ok (pyStrip out)) ∧
    (∀ ts : Nat,
      run_applescript_classify ts .timeout =
        .error ⟨.appleScript, "Script execution timeout after " ++ toString ts ++ "s"⟩) := by
  refine ⟨?_, ?_, ?_, ?_, ?_, ?_⟩
  · intro ts rc out err hrc h1
    unfold run_applescript_classify
    simp [hrc, h1]
  · intro ts rc out err hrc h1 h2
    unfold run_applescript_classify
    simp [hrc, h1, h2]
  · intro ts rc out err hrc h1 h2 h3
    unfold run_applescript_classify
    simp [hrc, h1, h2, h3]
  · intro ts rc out err hrc h1 h2 h3
    unfold run_applescript_classify
    simp [hrc, h1, h2, h3]
  · intro ts out err
    rfl
  · intro ts
    rfl

/-- Witness for C3 (amended) at concrete outcomes: an account error, a
mailbox error, a generic error and a zero-exit success. -/
theorem spec_c3_amended_witness :
    run_applescript_classify 60 (.exited 1 "" " Can't get account \"X\" ") =
      .error ⟨.accountNotFound, "Can't get account \"X\""⟩ ∧
    run_applescript_classify 60 (.exited 1 "" "Can't get mailbox \"M\"") =
      .error ⟨.mailboxNotFound, "Can't get mailbox \"M\""⟩ ∧
    run_applescript_classify 30 (.exited 2 "" "boom") =
      .error ⟨.appleScript, "boom"⟩ ∧
    run_applescript_classify 60 (.exited 0 " ok \n" "ignored") = .ok "ok" := by
  refine ⟨?_, ?_, ?_, ?_⟩
  · exact (spec_c3_amended.1 60 1 "" " Can't get account \"X\" " (by decide)
      (by decide)).trans rfl
  · exact (spec_c3_amended.2.1 60 1 "" "Can't get mailbox \"M\"" (by decide)
      (by decide) (by decide)).trans rfl
  · exact (spec_c3_amended.2.2.2.1 30 2 "" "boom" (by decide) (by decide) (by decide)
      (by decide)).trans rfl
  · exact (spec_c3_amended.2.2.2.2.1 60 " ok \n" "ignored").trans rfl

/-! ## Claim C2 -/

/-- Counterexample for C2: `mark_as_read` interpolates caller-supplied
message IDs into its script text RAW (`", ".join(message_ids)`, line 515
of mail_connector.py), so the interpolated `id_list` fragment for the ID
`123"evil` is the raw string, which differs from
`escape(sanitize(raw))`. -/
theorem spec_c2_counterexample :
    (mark_as_read ["123\"evil"] true (.ok "1")).1 = [⟨"true", "123\"evil"⟩] ∧
    ("123\"evil" == escape_applescript_string (sanitize_input "123\"evil")) = false := by
  exact ⟨rfl, by decide⟩

/-- Claim C2 (amended): (1) `search_messages` interpolates its account,
mailbox and truthy sender/subject search terms as
`escape_applescript_string(sanitize_input(...))`, sanitize before escape,
ANDing the conditions; (2) the single-message lookups `get_message`,
`get_attachments` and `save_attachments` interpolate their message IDs as
`escape(sanitize_input(...))`; (3) `send_email` interpolates its subject
and body as `escape(sanitize_input(...))` and `reply_to_message` and
`forward_message` their bodies likewise; (4) `move_messages`
interpolates its account and destination mailbox as
`escape(sanitize_input(...))`; (5) `create_mailbox` interpolates its
account and truthy parent as `escape(sanitize_input(...))` but its NEW
mailbox name as `escape(sanitize_mailbox_name(...))` — a different
sanitizer; (6) recipient addresses (`send_email`'s to/cc/bcc and
`forward_message`'s formatted lists) pass `escape_applescript_string`
ONLY, with no sanitization, so a null byte survives; (7) the message IDs
of `mark_as_read`, `move_messages`, `flag_message`, `delete_messages`,
`reply_to_message` and `forward_message` are interpolated raw, with
neither transform. -/
theorem spec_c2_amended :
    (∀ (account mailbox s t : String) (b : Bool), s ≠ "" → t ≠ "" →
      search_whose_script account mailbox (some s) (some t) (some b) none =
        { account_safe := escape_applescript_string (sanitize_input account),
          mailbox_safe := escape_applescript_string (sanitize_input mailbox),
          conditions :=
            ["sender contains \"" ++ escape_applescript_string (sanitize_input s) ++ "\"",
             "subject contains \"" ++ escape_applescript_string (sanitize_input t) ++ "\"",
             "read status is " ++ (if b then "true" else "false")],
          whose_clause := joinSep " and "
            ["sender contains \"" ++ escape_applescript_string (sanitize_input s) ++ "\"",
             "subject contains \"" ++ escape_applescript_string (sanitize_input t) ++ "\"",
             "read status is " ++ (if b then "true" else "false")],
          limit_clause := "" }) ∧
    (∀ message_id : String,
      get_message_id_safe message_id =
          escape_applescript_string (sanitize_input message_id) ∧
      get_attachments_id_safe message_id =
          escape_applescript_string (sanitize_input message_id) ∧
      save_attachments_id_safe message_id =
          escape_applescript_string (sanitize_input message_id)) ∧
    (∀ (subject body : String) (rcpts : List String) (cc bcc : Option (List String)),
      (send_email_script subject body rcpts cc bcc).subject_safe =
          escape_applescript_string (sanitize_input subject) ∧
      (send_email_script subject body rcpts cc bcc).body_safe =
          escape_applescript_string (sanitize_input body) ∧
      (send_email_script subject body rcpts cc bcc).to_list =
          send_email_to_list rcpts) ∧
    (∀ (message_id body : String) (ra : Bool),
      (reply_to_message_script message_id body ra).message_id = message_id ∧
      (reply_to_message_script message_id body ra).body_safe =
        escape_applescript_string (sanitize_input body)) ∧
    (∀ (message_id body : String) (rcpts : List String) (cc bcc : Option (List String)),
      (forward_message_script message_id body rcpts cc bcc).message_id = message_id ∧
      (forward_message_script message_id body rcpts cc bcc).body_safe =
          escape_applescript_string (sanitize_input body) ∧
      (forward_message_script message_id body rcpts cc bcc).to_list =
          format_applescript_list rcpts) ∧
    (∀ (ids : List String) (dest account : String) (g : Bool) (r : String),
      ids ≠ [] →
      (move_messages ids dest account g (.ok r)).1 =
        [⟨g, escape_applescript_string (sanitize_input account),
          escape_applescript_string (sanitize_input dest), joinSep ", " ids⟩]) ∧
    (∀ (account name : String) (parent : Option String) (b : Except MailErr String),
      sanitize_mailbox_name name ≠ "" →
      (create_mailbox account name parent b).1 =
        [⟨truthyStr parent, escape_applescript_string (sanitize_input account),
          if truthyStr parent then
            escape_applescript_string (sanitize_input (parent.getD ""))
          else "",
          escape_applescript_string (sanitize_mailbox_name name)⟩]) ∧
    (∀ addr : String,
      send_email_to_list [addr] = "\"" ++ escape_applescript_string addr ++ "\"" ∧
      format_applescript_list [addr] =
        "\x7b" ++ ("\"" ++ escape_applescript_string addr ++ "\"") ++ "\x7d") ∧
    ((send_email_to_list ["a\x00b"] ==
      "\"" ++ escape_applescript_string (sanitize_input "a\x00b") ++ "\"") = false) ∧
    ((format_applescript_list ["a\x00b"] ==
      "\x7b\"" ++ escape_applescript_string (sanitize_input "a\x00b") ++ "\"\x7d") = false) ∧
    (∀ (ids : List String) (read : Bool) (r : String),
      ids ≠ [] →
      (mark_as_read ids read (.ok r)).1 =
        [⟨if read then "true" else "false", joinSep ", " ids⟩]) ∧
    (∀ (ids : List String) (color : String) (i : Int) (r : String),
      ids ≠ [] → validate_flag_color color = true → get_flag_index color = some i →
      (flag_message ids color (.ok r)).1 =
        [⟨i, if color != "none" then "true" else "false", joinSep ", " ids⟩]) ∧
    (∀ (ids : List String) (permanent : Bool) (r : String),
      ids ≠ [] →
      (delete_messages ids permanent true (.ok r)).1 =
        [if permanent then delete_script_permanent (joinSep ", " ids)
         else delete_script_trash (joinSep ", " ids)]) := by
  refine ⟨?_, fun message_id => ⟨rfl, rfl, rfl⟩,
    fun subject body rcpts cc bcc => ⟨rfl, rfl, rfl⟩,
    fun message_id body ra => ⟨rfl, rfl⟩,
    fun message_id body rcpts cc bcc => ⟨rfl, rfl, rfl⟩,
    ?_, ?_, fun addr => ⟨rfl, rfl⟩, by decide, by decide, ?_, ?_, ?_⟩
  · intro account mailbox s t b hs ht
    unfold search_whose_script
    have hs' : truthyStr (some s) = true := by
      simp [truthyStr, bne_iff_ne, hs]
    have ht' : truthyStr (some t) = true := by
      simp [truthyStr, bne_iff_ne, ht]
    simp only [hs', ht', if_true, truthyNat, Option.getD_some]
    simp [joinSep]
  · intro ids dest account g r h
    unfold move_messages
    simp [h]
  · intro account name parent b h
    unfold create_mailbox
    simp only [h, if_false]
    cases b <;> cases htp : truthyStr parent <;> simp [htp]
  · intro ids read r h
    unfold mark_as_read
    simp [h]
  · intro ids color i r hne hv hi
    unfold flag_message
    simp [hne, hv, hi]
  · intro ids permanent r h
    unfold delete_messages
    simp [h]

/-- Witness for C2 (amended) at concrete inputs: escaped-sanitized search
fragments, move fragments, a create_mailbox name through the mailbox-name
sanitizer, raw IDs in mark_as_read/flag_message/delete_messages. -/
theorem spec_c2_amended_witness :
    search_whose_script "G" "INBOX" (some "al\"ice") (some "hi") (some true) none =
      ⟨"G", "INBOX",
       ["sender contains \"al\\\"ice\"", "subject contains \"hi\"",
        "read status is true"],
       "sender contains \"al\\\"ice\" and subject contains \"hi\" and read status is true",
       ""⟩ ∧
    (move_messages ["1", "2"] "Done \"Q\"" "G" false (.ok "2")).1 =
      [⟨false, "G", "Done \\\"Q\\\"", "1, 2"⟩] ∧
    (create_mailbox "G" "A/B" none (.ok "success")).1 = [⟨false, "G", "", "AB"⟩] ∧
    (mark_as_read ["7"] false (.ok "1")).1 = [⟨"false", "7"⟩] ∧
    (flag_message ["8", "9"] "red" (.ok "2")).1 = [⟨1, "true", "8, 9"⟩] ∧
    (delete_messages ["9"] false true (.ok "1")).1 = [delete_script_trash "9"] := by
  refine ⟨?_, ?_, ?_, ?_, ?_, ?_⟩
  · exact (spec_c2_amended.1 "G" "INBOX" "al\"ice" "hi" true (by decide)
      (by decide)).trans (by decide)
  · exact (spec_c2_amended.2.2.2.2.2.1 ["1", "2"] "Done \"Q\"" "G" false "2"
      (by decide)).trans (by decide)
  · exact (spec_c2_amended.2.2.2.2.2.2.1 "G" "A/B" none (.ok "success")
      (by decide)).trans (by decide)
  · exact (spec_c2_amended.2.2.2.2.2.2.2.2.2.2.1 ["7"] false "1"
      (by decide)).trans (by decide)
  · exact (spec_c2_amended.2.2.2.2.2.2.2.2.2.2.2.1 ["8", "9"] "red" 1 "2"
      (by decide) (by decide) (by decide)).trans (by decide)
  · exact (spec_c2_amended.2.2.2.2.2.2.2.2.2.2.2.2 ["9"] false "1"
      (by decide)).trans rfl

/-! ## Claim C6 -/

/-- Claim C6 (code bug): the `permanent=True` and `permanent=False`
branches of `delete_messages` build character-identical script texts —
both are the plain `delete msg` script — so the two modes are the SAME
operation, contradicting the function's own docstring ("If True,
permanently delete (bypass trash)") and the spec.  Evaluated at the
failing input `message_ids=["101"]`. -/
theorem spec_c6_code_bug :
    delete_messages ["101"] true true (.ok "1") =
      delete_messages ["101"] false true (.ok "1") ∧
    ∀ id_list : String, delete_script_permanent id_list = delete_script_trash id_list := by
  exact ⟨rfl, fun id_list => rfl⟩

/-! ## Claim C7 -/

/-- Counterexample for C7: the exposed `mark_as_read` tool with an empty
ID list does NOT return a zero-count success — `validate_bulk_operation`
treats zero items as a validation failure, so the tool returns
`success=False` with `error_type="validation_error"` (it does, however,
perform no bridge invocation). -/
theorem spec_c7_counterexample :
    server_mark_as_read [] true (.ok "0") [] =
      ([], [], ⟨false, some "validation_error", none⟩) := rfl

/-- Claim C7 (amended): with an empty message-ID list the CONNECTOR-level
`mark_as_read`, `move_messages` and `delete_messages` short-circuit to a
zero count with no bridge invocation, and the exposed `move_messages` and
`delete_messages` tools return a zero-count success with no bridge
invocation and no log append; but the exposed `mark_as_read` tool instead
fails bulk validation (zero items) and returns
`error_type="validation_error"` — still with no bridge invocation and no
log append. -/
theorem spec_c7_amended :
    (∀ (read : Bool) (b : Except MailErr String),
      mark_as_read [] read b = ([], .ok 0)) ∧
    (∀ (dest account : String) (g : Bool) (b : Except MailErr String),
      move_messages [] dest account g b = ([], .ok 0)) ∧
    (∀ (p s : Bool) (b : Except MailErr String),
      delete_messages [] p s b = ([], .ok 0)) ∧
    (∀ (dest account : String) (g : Bool) (b : Except MailErr String)
       (log : List LogEntry),
      server_move_messages [] dest account g b log =
        (log, [], ⟨true, none, some 0⟩)) ∧
    (∀ (p : Bool) (b : Except MailErr String) (log : List LogEntry),
      server_delete_messages [] p b log = (log, [], ⟨true, none, some 0⟩)) ∧
    (∀ (read : Bool) (b : Except MailErr String) (log : List LogEntry),
      server_mark_as_read [] read b log =
        (log, [], ⟨false, some "validation_error", none⟩)) := by
  exact ⟨fun read b => rfl, fun dest account g b => rfl, fun p s b => rfl,
    fun dest account g b log => rfl, fun p b log => rfl, fun read b log => rfl⟩

/-! ## Claim C8 -/

theorem validate_flag_color_lookup (color : String)
    (h : validate_flag_color color = true) : ∃ i, get_flag_index color = some i := by
  unfold validate_flag_color at h
  unfold get_flag_index
  simp only [List.mem_cons, List.not_mem_nil, or_false, decide_eq_true_eq] at h
  rcases h with h | h | h | h | h | h | h | h <;> rw [h] <;> exact ⟨_, rfl⟩

/-- Counterexamples for C8: (i) the color string `"RED"` is NOT in the
8-entry enumeration `none, orange, red, yellow, blue, green, purple,
gray`, yet `flag_message` does not raise — validation lowercases, so the
call proceeds to the bridge with flag index 1; (ii) the color `"None"` is
accepted as valid, maps to flag index -1, yet sets the flagged boolean
to `"true"` in the generated script (the `flag_color != "none"` test does
not lowercase), breaking flag-color/flagged consistency. -/
theorem spec_c8_counterexample :
    flag_message ["12345"] "RED" (.ok "1") = ([⟨1, "true", "12345"⟩], .ok 1) ∧
    (["none", "orange", "red", "yellow", "blue", "green", "purple", "gray"].contains
      "RED") = false ∧
    flag_message ["12345"] "None" (.ok "1") = ([⟨-1, "true", "12345"⟩], .ok 1) := by
  exact ⟨rfl, by decide, rfl⟩

/-- Claim C8 (amended): for a non-empty ID list, a color whose LOWERCASED
form is not in the 8-entry enumeration raises `ValueError` before any
bridge call (empty script list); the exact string `"none"` yields flag
index -1 and flagged `"false"` in the generated script; any other valid
color yields its mapped index with flagged `"true"` — including
case-variants of `"none"` such as `"None"`, which therefore get index -1
together with flagged `"true"`. -/
theorem spec_c8_amended :
    (∀ (ids : List String) (color : String) (b : Except MailErr String),
      ids ≠ [] → validate_flag_color color = false →
      flag_message ids color b =
        ([], .error (.valueError ("Invalid flag color: " ++ color)))) ∧
    (∀ (ids : List String) (r : String),
      ids ≠ [] →
      flag_message ids "none" (.ok r) =
        ([⟨-1, "false", joinSep ", " ids⟩], .ok (parse_count r))) ∧
    (∀ (ids : List String) (color : String) (r : String),
      ids ≠ [] → validate_flag_color color = true → color ≠ "none" →
      ∃ i, get_flag_index color = some i ∧
        flag_message ids color (.ok r) =
          ([⟨i, "true", joinSep ", " ids⟩], .ok (parse_count r))) := by
  refine ⟨?_, ?_, ?_⟩
  · intro ids color b hne hv
    unfold flag_message
    simp [hne, hv]
  · intro ids r hne
    unfold flag_message
    simp [hne]
    rfl
  · intro ids color r hne hv hnn
    obtain ⟨i, hi⟩ := validate_flag_color_lookup color hv
    refine ⟨i, hi, ?_⟩
    unfold flag_message
    simp [hne, hv, hi, hnn]

/-- Witness for C8 (amended) at concrete inputs: an invalid color fails
before the bridge, `"none"` clears the flag, `"red"` sets index 1 and
flagged `"true"`. -/
theorem spec_c8_amended_witness :
    flag_message ["1"] "chartreuse" (.ok "1") =
      ([], .error (.valueError "Invalid flag color: chartreuse")) ∧
    flag_message ["1", "2"] "none" (.ok "2") = ([⟨-1, "false", "1, 2"⟩], .ok 2) ∧
    flag_message ["1"] "red" (.ok "1") = ([⟨1, "true", "1"⟩], .ok 1) := by
  refine ⟨?_, ?_, ?_⟩
  · exact (spec_c8_amended.1 ["1"] "chartreuse" (.ok "1") (by decide) (by decide))
  · exact (spec_c8_amended.2.1 ["1", "2"] "2" (by decide)).trans rfl
  · obtain ⟨i, hi, h⟩ := spec_c8_amended.2.2 ["1"] "red" "1" (by decide) (by decide)
      (by decide)
    have hi' : i = 1 := by
      have : (some i : Option Int) = some 1 := hi.symm.trans rfl
      simpa using this
    subst hi'
    exact h.trans rfl

/-! ## Claim C9 -/

/-- Counterexample for C9: a successful exposed `move_messages` call (one
message moved) appends NOTHING to the operation log — the tool body has
no logger call — refuting "every exposed operation appends exactly one
entry". -/
theorem spec_c9_counterexample :
    (server_move_messages ["12345"] "Archive" "Gmail" false (.ok "1") []).1 = [] ∧
    (server_move_messages ["12345"] "Archive" "Gmail" false (.ok "1") []).2.2 =
      ⟨true, none, some 1⟩ := by
  exact ⟨rfl, rfl⟩

/-- Claim C9 (amended): the log itself is append-only —
`log_operation` appends exactly one entry and preserves all existing
entries, and `get_recent_operations` does not modify the log — and the
exposed `mark_as_read` tool appends exactly one entry on success; but the
exposed `move_messages`, `flag_message`, `create_mailbox` and
`delete_messages` tools never append on any path. -/
theorem spec_c9_amended :
    (∀ (log : List LogEntry) (op : String) (params : List (String × String))
       (res : String),
      log_operation log op params res = log ++ [⟨op, params, res⟩] ∧
      log <+: log_operation log op params res) ∧
    (∀ (ids : List String) (dest account : String) (g : Bool)
       (b : Except MailErr String) (log : List LogEntry),
      (server_move_messages ids dest account g b log).1 = log) ∧
    (∀ (ids : List String) (color : String) (b : Except MailErr String)
       (log : List LogEntry),
      (server_flag_message ids color b log).1 = log) ∧
    (∀ (account name : String) (parent : Option String)
       (b : Except MailErr String) (log : List LogEntry),
      (server_create_mailbox account name parent b log).1 = log) ∧
    (∀ (ids : List String) (p : Bool) (b : Except MailErr String)
       (log : List LogEntry),
      (server_delete_messages ids p b log).1 = log) ∧
    (∀ (ids : List String) (read : Bool) (r : String) (log : List LogEntry),
      ids ≠ [] → ids.length ≤ 100 →
      (server_mark_as_read ids read (.ok r) log).1 =
        log ++ [⟨"mark_as_read",
                 [("count", toString ids.length), ("read", toString read)],
                 "success"⟩]) := by
  refine ⟨?_, ?_, ?_, ?_, ?_, ?_⟩
  · intro log op params res
    exact ⟨rfl, ⟨[⟨op, params, res⟩], rfl⟩⟩
  · intro ids dest account g b log
    unfold server_move_messages
    split
    · rfl
    · split <;> rfl
  · intro ids color b log
    unfold server_flag_message
    split
    · rfl
    · split <;> rfl
  · intro account name parent b log
    unfold server_create_mailbox
    split
    · rfl
    · split <;> rfl
  · intro ids p b log
    unfold server_delete_messages
    split
    · rfl
    · split
      · rfl
      · split <;> rfl
  · intro ids read r log hne hlen
    unfold server_mark_as_read validate_bulk_operation
    have h0 : ids.length ≠ 0 := by
      intro h
      exact hne (List.length_eq_zero.mp h)
    have h100 : ¬ ids.length > 100 := by omega
    simp only [h0, if_false, h100]
    unfold mark_as_read
    simp [hne, log_operation]

/-- Witness for C9 (amended): a successful exposed `mark_as_read` call on
two IDs appends exactly one success entry. -/
theorem spec_c9_amended_witness :
    (server_mark_as_read ["1", "2"] true (.ok "2") []).1 =
      [⟨"mark_as_read", [("count", "2"), ("read", "true")], "success"⟩] := by
  exact (spec_c9_amended.2.2.2.2.2 ["1", "2"] true "2" [] (by decide)
    (by decide)).trans rfl

end AppleMailMCP
